import Mathlib

/-
Verification of folio-utils (src/main.py): a FOLIO inventory utility that
deletes the permanent item location for every barcode listed in a TSV input
file. We embed the Python code shallowly: JSON values become an inductive
type, Python dicts become ordered association lists, the FOLIO backend and
the HTTP PUT are oracles carried in an environment record, and Python
exceptions become an explicit error type threaded through Except.
-/

set_option autoImplicit false

namespace FolioUtils

/-- JSON values as loaded by Python's json module; objects keep insertion
order, like Python dicts. -/
inductive Json where
  | null
  | bool (b : Bool)
  | num (n : Int)
  | str (s : String)
  | arr (elems : List Json)
  | obj (fields : List (String × Json))
deriving Repr

/-- A JSON record (a Python dict at top level): ordered key/value pairs. -/
abbrev Rec := List (String × Json)

/-- Python truthiness for a JSON value: None, False, 0, "", [], {} are
falsy, everything else is truthy. -/
def truthy : Json → Bool
  | Json.null => false
  | Json.bool b => b
  | Json.num n => n != 0
  | Json.str s => s != ""
  | Json.arr elems => !elems.isEmpty
  | Json.obj fields => !fields.isEmpty

/-- Python truthiness of an optional JSON value (`None` is falsy). -/
def truthyOpt : Option Json → Bool
  | none => false
  | some j => truthy j

/-- First value stored under a key, Python `dict` subscript/lookup. -/
def lookupKey (key : String) : Rec → Option Json
  | [] => none
  | (k, v) :: rest => if k = key then some v else lookupKey key rest

/-- Python `rec.pop(key, None)`: remove the entry for the key and return its
value, or return None and leave the record unchanged when absent. Returns
the popped value together with the record after the pop. -/
def popKey (key : String) : Rec → Option Json × Rec
  | [] => (none, [])
  | (k, v) :: rest =>
    if k = key then (some v, rest)
    else
      let p := popKey key rest
      (p.1, (k, v) :: p.2)

/-- Embeds `delete_perm_location` (main.py lines 139-150):
`return rec.pop("permanentLocation", None)`. The Python call mutates `rec`
in place; here the popped value and the mutated record are returned as a
pair. -/
def delete_perm_location (rec : Rec) : Option Json × Rec :=
  popKey "permanentLocation" rec

/-- The body of the FOLIO `/inventory/items` query response used by the
code: the `items` array and the `totalRecords` field. -/
structure FolioRes where
  items : List Rec
  totalRecords : Nat
deriving Repr

/-- A response is well formed when `totalRecords` counts the records the
query actually returned. -/
def wfRes (res : FolioRes) : Prop :=
  res.totalRecords = res.items.length

instance (res : FolioRes) : Decidable (wfRes res) := by
  unfold wfRes; infer_instance

/-- The external world as the program sees it: `query b` is the backend's
response to `?query=barcode=="b"`, and `put rec` is the HTTP status code
and response body of `requests.put` on the updated item. -/
structure Env where
  query : String → FolioRes
  put : Rec → Nat × String

/-- Python exceptions that the embedded code can raise. -/
inductive PyErr where
  | indexError
  | keyError
  | typeError
  | attributeError
deriving Repr, DecidableEq

/-- The value slot of `get_item_by_barcode_safe`'s return pair: Python
`None`, a single item dict, or the whole items list. -/
inductive RetVal where
  | null
  | one (item : Rec)
  | many (items : List Rec)
deriving Repr

/-- Embeds `get_item_by_barcode` (main.py lines 79-100): returns None when
`totalRecords` is 0, otherwise `res["items"][0]`; indexing an empty list
raises IndexError. -/
def get_item_by_barcode (res : FolioRes) : Except PyErr (Option Rec) :=
  if res.totalRecords = 0 then Except.ok none
  else
    match res.items with
    | [] => Except.error PyErr.indexError
    | x :: _ => Except.ok (some x)

/-- Embeds `get_item_by_barcode_safe` (main.py lines 103-136): returns the
pair of `totalRecords` and a value determined by it: None at 0, `items[0]`
at 1 (IndexError when the array is empty), the items list otherwise. -/
def get_item_by_barcode_safe (res : FolioRes) : Except PyErr (Nat × RetVal) :=
  let items := res.items
  let n := res.totalRecords
  if n = 0 then Except.ok (n, RetVal.null)
  else if n = 1 then
    match items with
    | [] => Except.error PyErr.indexError
    | x :: _ => Except.ok (n, RetVal.one x)
  else Except.ok (n, RetVal.many items)

/-- Embeds `put_item` (main.py lines 153-166): the PUT itself is the
environment's oracle; the function returns the status code and response
text. -/
def put_item (env : Env) (item : Rec) : Nat × String :=
  env.put item

/-- One output row of the TSV writer: barcode, status code, message
(main.py line 194 / line 224 `out_csv.writerow([barcode, status_code, msg])`). -/
abbrev Row := String × Nat × String

/-- The body of the `delete_location_loop` for-loop (main.py lines 179-194)
for one barcode: resolve with `get_item_by_barcode`, report "No item
matching barcode b" when the result is falsy, strip the permanent location,
report "Item had no permanentLocation" when the popped value is falsy,
otherwise PUT the stripped item and, when the response body is empty,
replace the message by `"old location: " + old_loc["name"]` (KeyError or
TypeError when `old_loc` is not a dict holding a string name). Returns the
output row and the list of items PUT during the row. -/
def process_row (env : Env) (barcode : String) : Except PyErr (Row × List Rec) :=
  match get_item_by_barcode (env.query barcode) with
  | Except.error e => Except.error e
  | Except.ok itemOpt =>
    match itemOpt with
    | none => Except.ok ((barcode, 0, "No item matching barcode " ++ barcode), [])
    | some item =>
      if item.isEmpty then
        Except.ok ((barcode, 0, "No item matching barcode " ++ barcode), [])
      else
        let p := delete_perm_location item
        if truthyOpt p.1 = false then
          Except.ok ((barcode, 0, "Item had no permanentLocation"), [])
        else
          let r := put_item env p.2
          if r.2 = "" then
            match p.1 with
            | some (Json.obj loc) =>
              match lookupKey "name" loc with
              | some (Json.str s) =>
                Except.ok ((barcode, r.1, "old location: " ++ s), [p.2])
              | some _ => Except.error PyErr.typeError
              | none => Except.error PyErr.keyError
            | _ => Except.error PyErr.typeError
          else
            Except.ok ((barcode, r.1, r.2), [p.2])

/-- The body of the `delete_location_loop_safe` for-loop (main.py lines
208-224) for one barcode: resolve with `get_item_by_barcode_safe`; at count
0 report "No item matching barcode b", above 1 report "n items matched
barcode b", at exactly 1 strip the permanent location, report "Item had no
permanentLocation" when the popped value is falsy, otherwise PUT the
stripped item and emit its status code and response text. Returns the
output row and the list of items PUT during the row. -/
def process_row_safe (env : Env) (barcode : String) : Except PyErr (Row × List Rec) :=
  match get_item_by_barcode_safe (env.query barcode) with
  | Except.error e => Except.error e
  | Except.ok (n, ret) =>
    if n = 0 then
      Except.ok ((barcode, 0, "No item matching barcode " ++ barcode), [])
    else if 1 < n then
      Except.ok ((barcode, 0, toString n ++ " items matched barcode " ++ barcode), [])
    else
      match ret with
      | RetVal.one rec =>
        let p := delete_perm_location rec
        if truthyOpt p.1 = false then
          Except.ok ((barcode, 0, "Item had no permanentLocation"), [])
        else
          let r := put_item env p.2
          Except.ok ((barcode, r.1, r.2), [p.2])
      | _ => Except.error PyErr.attributeError

/-- Result of running a row loop to completion or to its first uncaught
exception: the rows written so far, the items PUT so far, and the
exception if one escaped. -/
structure LoopResult where
  out : List Row
  puts : List Rec
  err : Option PyErr
deriving Repr

/-- Shared shape of both row loops (main.py lines 179-194 and 208-224):
for each input row take `row[0]` as the barcode (IndexError on an empty
row), run the per-row body, write one output row, and continue; an uncaught
exception stops the loop after the rows already written. -/
def runLoop (step : String → Except PyErr (Row × List Rec)) :
    List (List String) → LoopResult
  | [] => ⟨[], [], none⟩
  | row :: rest =>
    match row with
    | [] => ⟨[], [], some PyErr.indexError⟩
    | b :: _ =>
      match step b with
      | Except.error e => ⟨[], [], some e⟩
      | Except.ok (o, ps) =>
        let r := runLoop step rest
        ⟨o :: r.out, ps ++ r.puts, r.err⟩

/-- Embeds `delete_location_loop` (main.py lines 169-194), the
assume-unique variant. -/
def delete_location_loop (env : Env) (rows : List (List String)) : LoopResult :=
  runLoop (process_row env) rows

/-- Embeds `delete_location_loop_safe` (main.py lines 197-224), the
handle-ambiguous variant. -/
def delete_location_loop_safe (env : Env) (rows : List (List String)) : LoopResult :=
  runLoop (process_row_safe env) rows

/-- Embeds the row-processing part of `main` (main.py lines 247-252): after
building the client, `main` calls `delete_location_loop` on the input and
output TSV streams. -/
def main_program (env : Env) (rows : List (List String)) : LoopResult :=
  delete_location_loop env rows

/-- Error classes of the config parser that `read_config` catches. -/
inductive ConfigError where
  | missingSectionHeader
deriving Repr, DecidableEq

/-- Strip leading and trailing whitespace from a line of characters. -/
def trimChars (cs : List Char) : List Char :=
  ((cs.dropWhile Char.isWhitespace).reverse.dropWhile Char.isWhitespace).reverse

/-- Whether a line of characters starts with the given character. -/
def startsWithChar (c : Char) : List Char → Bool
  | [] => false
  | x :: _ => x == c

/-- Split file contents at newline characters, like Python's line
iteration over the file. -/
def splitLines : List Char → List (List Char)
  | [] => [[]]
  | c :: rest =>
    if c = '\n' then [] :: splitLines rest
    else
      match splitLines rest with
      | [] => [[c]]
      | l :: ls => (c :: l) :: ls

/-- A line that configparser does not skip: neither blank nor a `#` or `;`
comment. -/
def is_content_line (l : List Char) : Bool :=
  let t := trimChars l
  !(t.isEmpty || startsWithChar '#' t || startsWithChar ';' t)

/-- Models Python's `configparser.ConfigParser.read_file`, as far as the
code observes it: the parse raises MissingSectionHeaderError exactly when
the first non-blank, non-comment line is not a `[section]` header;
otherwise the parse succeeds and we keep the content lines. -/
def read_file (contents : String) : Except ConfigError (List (List Char)) :=
  match (splitLines contents.toList).filter is_content_line with
  | [] => Except.ok []
  | l :: rest =>
    if startsWithChar '[' (trimChars l) then Except.ok (l :: rest)
    else Except.error ConfigError.missingSectionHeader

/-- Embeds `error_exit` (main.py lines 12-16): write the message to
standard error and exit with the status; modelled as the pair of exit code
and stderr output. -/
def error_exit (status : Nat) (msg : String) : Nat × String :=
  (status, msg)

/-- Embeds `read_config` (main.py lines 19-32) over a filesystem oracle
`fs` mapping a filename to its contents when the file exists:
FileNotFoundError exits with status 1, MissingSectionHeaderError with
status 2, each with the message `f"{type(err).__name__}: {err}\n"` written
to stderr; otherwise the parsed config is returned. -/
def read_config (fs : String → Option String) (filename : String) :
    Except (Nat × String) (List (List Char)) :=
  match fs filename with
  | none =>
    Except.error (error_exit 1
      ("FileNotFoundError: [Errno 2] No such file or directory: " ++ filename ++ "\n"))
  | some contents =>
    match read_file contents with
    | Except.error ConfigError.missingSectionHeader =>
      Except.error (error_exit 2
        ("MissingSectionHeaderError: File contains no section headers.\n"))
    | Except.ok c => Except.ok c

/-! Helper lemmas about association-list pop and lookup. -/

theorem popKey_fst (key : String) (rec : Rec) :
    (popKey key rec).1 = lookupKey key rec := by
  induction rec with
  | nil => rfl
  | cons kv rest ih =>
    obtain ⟨k, v⟩ := kv
    by_cases h : k = key <;> simp [popKey, lookupKey, h, ih]

theorem lookupKey_ne_nil (key : String) (rec : Rec) (v : Json)
    (h : lookupKey key rec = some v) : rec ≠ [] := by
  intro hnil
  subst hnil
  simp [lookupKey] at h

theorem lookupKey_eq_none_of_not_mem (key : String) (rec : Rec)
    (h : key ∉ rec.map Prod.fst) : lookupKey key rec = none := by
  induction rec with
  | nil => rfl
  | cons kv rest ih =>
    obtain ⟨k, v⟩ := kv
    simp only [List.map_cons, List.mem_cons] at h
    push_neg at h
    simp only [lookupKey]
    rw [if_neg (Ne.symm h.1)]
    exact ih h.2

theorem popKey_eq_of_lookup_none (key : String) (rec : Rec)
    (h : lookupKey key rec = none) : popKey key rec = (none, rec) := by
  induction rec with
  | nil => rfl
  | cons kv rest ih =>
    obtain ⟨k, v⟩ := kv
    by_cases hk : k = key
    · simp [lookupKey, hk] at h
    · simp only [lookupKey, if_neg hk] at h
      simp [popKey, hk, ih h]

theorem popKey_snd_eq_filter (key : String) (rec : Rec)
    (h : (rec.map Prod.fst).Nodup) :
    (popKey key rec).2 = rec.filter (fun kv => kv.1 != key) := by
  induction rec with
  | nil => rfl
  | cons kv rest ih =>
    obtain ⟨k, v⟩ := kv
    simp only [List.map_cons, List.nodup_cons] at h
    by_cases hk : k = key
    · subst hk
      have hall : ∀ kv ∈ rest, (fun kv : String × Json => kv.1 != k) kv = true := by
        intro kv hm
        simp only [bne_iff_ne, ne_eq]
        intro he
        exact h.1 (List.mem_map.mpr ⟨kv, hm, he⟩)
      simp [popKey, List.filter_cons, List.filter_eq_self.mpr hall]
    · simp [popKey, List.filter_cons, hk, ih h.2]

theorem lookupKey_popKey_self (key : String) (rec : Rec)
    (h : (rec.map Prod.fst).Nodup) :
    lookupKey key (popKey key rec).2 = none := by
  induction rec with
  | nil => rfl
  | cons kv rest ih =>
    obtain ⟨k, v⟩ := kv
    simp only [List.map_cons, List.nodup_cons] at h
    by_cases hk : k = key
    · subst hk
      simp only [popKey, if_pos rfl]
      exact lookupKey_eq_none_of_not_mem k rest h.1
    · simp [popKey, lookupKey, hk, ih h.2]

/-! The claims. -/

/-- C3: for every well-formed backend response, `get_item_by_barcode_safe`
returns a pair whose count equals the response's record count, and the
value slot is determined solely by the count: None at 0, the single item at
1, the ordered item list above 1. -/
theorem get_item_by_barcode_safe_spec (res : FolioRes) (h : wfRes res) :
    (∃ v, get_item_by_barcode_safe res = Except.ok (res.items.length, v)) ∧
    (res.items = [] → get_item_by_barcode_safe res = Except.ok (0, RetVal.null)) ∧
    (∀ x, res.items = [x] → get_item_by_barcode_safe res = Except.ok (1, RetVal.one x)) ∧
    (2 ≤ res.items.length →
      get_item_by_barcode_safe res = Except.ok (res.items.length, RetVal.many res.items)) := by
  obtain ⟨items, n⟩ := res
  simp only [wfRes] at h
  subst h
  rcases items with _ | ⟨x, _ | ⟨y, t⟩⟩ <;>
    simp [get_item_by_barcode_safe]

def resW : FolioRes := ⟨[[("id", Json.str "i1")]], 1⟩

/-- Witness for C3 at a concrete single-item response. -/
theorem get_item_by_barcode_safe_spec_witness :
    (∃ v, get_item_by_barcode_safe resW = Except.ok (resW.items.length, v)) ∧
    (resW.items = [] → get_item_by_barcode_safe resW = Except.ok (0, RetVal.null)) ∧
    (∀ x, resW.items = [x] → get_item_by_barcode_safe resW = Except.ok (1, RetVal.one x)) ∧
    (2 ≤ resW.items.length →
      get_item_by_barcode_safe resW = Except.ok (resW.items.length, RetVal.many resW.items)) :=
  get_item_by_barcode_safe_spec resW rfl

/-- C4: a row whose barcode matches more than one item makes the safe
per-row body emit (barcode, 0, "n items matched barcode b") and PUT
nothing. -/
theorem multi_match_refuses_update (env : Env) (b : String)
    (hw : wfRes (env.query b)) (h2 : 2 ≤ (env.query b).items.length) :
    process_row_safe env b =
      Except.ok ((b, 0, toString (env.query b).items.length ++ " items matched barcode " ++ b), []) := by
  have hn : (env.query b).totalRecords = (env.query b).items.length := hw
  have h0 : ¬ (env.query b).items.length = 0 := by omega
  have h1 : ¬ (env.query b).items.length = 1 := by omega
  have hgt : 1 < (env.query b).items.length := by omega
  simp [process_row_safe, get_item_by_barcode_safe, hn, h0, h1, hgt]

def twoItemRes : FolioRes := ⟨[[("id", Json.str "a")], [("id", Json.str "b")]], 2⟩

def twoItemEnv : Env := ⟨fun _ => twoItemRes, fun _ => (500, "boom")⟩

/-- Witness for C4 at a barcode matched by two items. -/
theorem multi_match_refuses_update_witness :
    process_row_safe twoItemEnv "B9" =
      Except.ok (("B9", 0,
        toString (twoItemEnv.query "B9").items.length ++ " items matched barcode " ++ "B9"), []) :=
  multi_match_refuses_update twoItemEnv "B9" rfl (by decide)

/-- C5: a row whose barcode matches no item makes both per-row bodies emit
(barcode, 0, "No item matching barcode b") and PUT nothing. -/
theorem no_match_no_update (env : Env) (b : String)
    (hw : wfRes (env.query b)) (h0 : (env.query b).items = []) :
    process_row_safe env b = Except.ok ((b, 0, "No item matching barcode " ++ b), []) ∧
    process_row env b = Except.ok ((b, 0, "No item matching barcode " ++ b), []) := by
  have hn : (env.query b).totalRecords = 0 := by rw [hw, h0]; rfl
  constructor
  · simp [process_row_safe, get_item_by_barcode_safe, hn]
  · simp [process_row, get_item_by_barcode, hn]

def emptyEnvA : Env := ⟨fun _ => ⟨[], 0⟩, fun _ => (0, "")⟩

/-- Witness for C5 at a barcode with no match. -/
theorem no_match_no_update_witness :
    process_row_safe emptyEnvA "Z1" =
      Except.ok (("Z1", 0, "No item matching barcode " ++ "Z1"), []) ∧
    process_row emptyEnvA "Z1" =
      Except.ok (("Z1", 0, "No item matching barcode " ++ "Z1"), []) :=
  no_match_no_update emptyEnvA "Z1" rfl rfl

/-- C7: stripping returns the stored permanent location (None when absent)
and the record with exactly the permanent-location entry removed, all other
fields unchanged and in order. -/
theorem delete_perm_location_spec (rec : Rec) (h : (rec.map Prod.fst).Nodup) :
    (delete_perm_location rec).1 = lookupKey "permanentLocation" rec ∧
    (delete_perm_location rec).2 = rec.filter (fun kv => kv.1 != "permanentLocation") :=
  ⟨popKey_fst _ _, popKey_snd_eq_filter _ _ h⟩

def recW7 : Rec :=
  [("id", Json.str "i1"),
   ("permanentLocation", Json.obj [("name", Json.str "Main Library")]),
   ("status", Json.str "Available")]

/-- Witness for C7 at a three-field record holding a permanent location. -/
theorem delete_perm_location_spec_witness :
    (delete_perm_location recW7).1 = lookupKey "permanentLocation" recW7 ∧
    (delete_perm_location recW7).2 = recW7.filter (fun kv => kv.1 != "permanentLocation") :=
  delete_perm_location_spec recW7 (by decide)

/-- C8: stripping a record without the permanent-location field returns
None and leaves the record unchanged, and stripping is idempotent: a second
strip after any strip returns None and changes nothing. -/
theorem strip_idempotent (rec : Rec) (h : (rec.map Prod.fst).Nodup) :
    (lookupKey "permanentLocation" rec = none →
      delete_perm_location rec = (none, rec)) ∧
    delete_perm_location (delete_perm_location rec).2 =
      (none, (delete_perm_location rec).2) := by
  constructor
  · intro h0
    exact popKey_eq_of_lookup_none _ _ h0
  · exact popKey_eq_of_lookup_none _ _ (lookupKey_popKey_self _ _ h)

def recW8 : Rec :=
  [("permanentLocation", Json.obj [("name", Json.str "Annex")]), ("id", Json.str "x")]

/-- Witness for C8 at a record holding a permanent location. -/
theorem strip_idempotent_witness :
    (lookupKey "permanentLocation" recW8 = none →
      delete_perm_location recW8 = (none, recW8)) ∧
    delete_perm_location (delete_perm_location recW8).2 =
      (none, (delete_perm_location recW8).2) :=
  strip_idempotent recW8 (by decide)

theorem safe_step_total (env : Env) (b : String) (h : wfRes (env.query b)) :
    ∃ ro ps, process_row_safe env b = Except.ok (ro, ps) ∧ ro.1 = b := by
  have hn : (env.query b).totalRecords = (env.query b).items.length := h
  by_cases h0 : (env.query b).totalRecords = 0
  · exact ⟨(b, 0, "No item matching barcode " ++ b), [],
      by simp [process_row_safe, get_item_by_barcode_safe, h0], rfl⟩
  · by_cases h1 : (env.query b).totalRecords = 1
    · obtain ⟨x, hx⟩ := List.length_eq_one.mp (by omega : (env.query b).items.length = 1)
      have hsafe : get_item_by_barcode_safe (env.query b) = Except.ok (1, RetVal.one x) := by
        simp [get_item_by_barcode_safe, h0, h1, hx]
      by_cases ht : truthyOpt (delete_perm_location x).1 = false
      · exact ⟨(b, 0, "Item had no permanentLocation"), [],
          by simp [process_row_safe, hsafe, ht], rfl⟩
      · exact ⟨(b, (put_item env (delete_perm_location x).2).1,
                   (put_item env (delete_perm_location x).2).2),
               [(delete_perm_location x).2],
          by simp [process_row_safe, hsafe, ht], rfl⟩
    · have hgt : 1 < (env.query b).totalRecords := by omega
      exact ⟨(b, 0, toString (env.query b).totalRecords ++ " items matched barcode " ++ b), [],
        by simp [process_row_safe, get_item_by_barcode_safe, h0, h1, hgt], rfl⟩

/-- C6: over well-formed responses the safe loop is a pure map: it writes
exactly one three-field row per input row, in input order, each row's
outcome depending only on its own barcode, and no row's failure stops the
loop. -/
theorem loop_rows_spec (env : Env) (rows : List (List String))
    (hw : ∀ b, wfRes (env.query b))
    (hr : ∀ r ∈ rows, r ≠ []) :
    ∃ outs : List (Row × List Rec),
      List.Forall₂ (fun (r : List String) (o : Row × List Rec) =>
        process_row_safe env r.headI = Except.ok o ∧ o.1.1 = r.headI) rows outs ∧
      (delete_location_loop_safe env rows).out = outs.map Prod.fst ∧
      (delete_location_loop_safe env rows).err = none := by
  induction rows with
  | nil => exact ⟨[], List.Forall₂.nil, rfl, rfl⟩
  | cons r rest ih =>
    obtain ⟨outs, hf, hout, herr⟩ := ih (fun r' hr' => hr r' (List.mem_cons_of_mem _ hr'))
    have hr1 : r ≠ [] := hr r (List.mem_cons_self _ _)
    rcases r with _ | ⟨b, t⟩
    · exact absurd rfl hr1
    obtain ⟨ro, ps, ho, hb⟩ := safe_step_total env b (hw b)
    refine ⟨(ro, ps) :: outs, List.Forall₂.cons ⟨by simpa [List.headI] using ho,
      by simpa [List.headI] using hb⟩ hf, ?_, ?_⟩
    · simp only [delete_location_loop_safe, runLoop, ho, List.map_cons]
      rw [show runLoop (process_row_safe env) rest = delete_location_loop_safe env rest from rfl,
        hout]
    · simp only [delete_location_loop_safe, runLoop, ho]
      rw [show runLoop (process_row_safe env) rest = delete_location_loop_safe env rest from rfl,
        herr]

def emptyEnvC : Env := ⟨fun _ => ⟨[], 0⟩, fun _ => (204, "")⟩

/-- Witness for C6 on a two-row input over an empty inventory. -/
theorem loop_rows_spec_witness :
    ∃ outs : List (Row × List Rec),
      List.Forall₂ (fun (r : List String) (o : Row × List Rec) =>
        process_row_safe emptyEnvC r.headI = Except.ok o ∧ o.1.1 = r.headI)
        [["A"], ["B"]] outs ∧
      (delete_location_loop_safe emptyEnvC [["A"], ["B"]]).out = outs.map Prod.fst ∧
      (delete_location_loop_safe emptyEnvC [["A"], ["B"]]).err = none :=
  loop_rows_spec emptyEnvC [["A"], ["B"]] (fun _ => rfl) (by decide)

/-- C10: when the permanentLocation key holds a falsy value, both per-row
bodies pop the key but report "Item had no permanentLocation" with no PUT,
and the popped record indeed no longer holds the key. -/
theorem falsy_location_reported_absent (env : Env) (b : String) (rec : Rec) (v : Json)
    (hq : env.query b = ⟨[rec], 1⟩)
    (hv : lookupKey "permanentLocation" rec = some v)
    (hfalsy : truthy v = false)
    (hnd : (rec.map Prod.fst).Nodup) :
    process_row_safe env b = Except.ok ((b, 0, "Item had no permanentLocation"), []) ∧
    process_row env b = Except.ok ((b, 0, "Item had no permanentLocation"), []) ∧
    lookupKey "permanentLocation" (delete_perm_location rec).2 = none := by
  have hne : rec ≠ [] := lookupKey_ne_nil _ _ _ hv
  have hp1 : (delete_perm_location rec).1 = some v := by
    rw [delete_perm_location, popKey_fst, hv]
  have ht : truthyOpt (delete_perm_location rec).1 = false := by
    rw [hp1]
    simpa [truthyOpt] using hfalsy
  have hempty : rec.isEmpty = false := by
    rcases rec with _ | ⟨kv, rest⟩
    · exact absurd rfl hne
    · rfl
  refine ⟨?_, ?_, lookupKey_popKey_self _ _ hnd⟩
  · simp [process_row_safe, get_item_by_barcode_safe, hq, ht]
  · simp [process_row, get_item_by_barcode, hq, hempty, ht]

def falsyRec : Rec := [("id", Json.str "i"), ("permanentLocation", Json.obj [])]

def falsyEnv : Env := ⟨fun _ => ⟨[falsyRec], 1⟩, fun _ => (204, "")⟩

/-- Witness for C10 at a record whose permanentLocation is the empty
object. -/
theorem falsy_location_reported_absent_witness :
    process_row_safe falsyEnv "B7" =
      Except.ok (("B7", 0, "Item had no permanentLocation"), []) ∧
    process_row falsyEnv "B7" =
      Except.ok (("B7", 0, "Item had no permanentLocation"), []) ∧
    lookupKey "permanentLocation" (delete_perm_location falsyRec).2 = none :=
  falsy_location_reported_absent falsyEnv "B7" falsyRec (Json.obj [])
    rfl rfl rfl (by decide)

def recStacks : Rec :=
  [("id", Json.str "a"), ("permanentLocation", Json.obj [("name", Json.str "Stacks")])]

def recOther : Rec := [("id", Json.str "b")]

def ambiguousEnv : Env := ⟨fun _ => ⟨[recStacks, recOther], 2⟩, fun _ => (204, "")⟩

/-- C1 counterexample: with two items sharing barcode B1, the program
(which calls `delete_location_loop` from `main`) strips and PUTs the first
matched item, while `delete_location_loop_safe` refuses and PUTs nothing,
so the program's per-row behaviour does not equal the safe variant's. -/
theorem main_not_safe_counterexample :
    (main_program ambiguousEnv [["B1"]]).out = [("B1", 204, "old location: Stacks")] ∧
    (main_program ambiguousEnv [["B1"]]).puts = [[("id", Json.str "a")]] ∧
    (delete_location_loop_safe ambiguousEnv [["B1"]]).out =
      [("B1", 0, "2 items matched barcode B1")] ∧
    (delete_location_loop_safe ambiguousEnv [["B1"]]).puts = [] ∧
    [(("B1" : String), (204 : Nat), "old location: Stacks")] ≠
      [(("B1" : String), (0 : Nat), "2 items matched barcode B1")] :=
  ⟨rfl, rfl, rfl, rfl, by decide⟩

/-- C1 amended: `main` drives every input row through the unsafe
assume-unique `delete_location_loop`, and the per-row behaviour of that
variant agrees with `delete_location_loop_safe` on rows that resolve to
zero items. -/
theorem main_uses_unsafe_loop :
    (∀ env rows, main_program env rows = delete_location_loop env rows) ∧
    (∀ env b, (env.query b).totalRecords = 0 →
      process_row env b = process_row_safe env b) := by
  constructor
  · intro env rows
    rfl
  · intro env b h0
    simp [process_row, process_row_safe, get_item_by_barcode, get_item_by_barcode_safe, h0]

def emptyEnvB : Env := ⟨fun _ => ⟨[], 0⟩, fun _ => (204, "")⟩

/-- Witness for the amended C1 on an empty inventory. -/
theorem main_uses_unsafe_loop_witness :
    main_program emptyEnvB [["X"]] = delete_location_loop emptyEnvB [["X"]] ∧
    process_row emptyEnvB "X" = process_row_safe emptyEnvB "X" :=
  ⟨main_uses_unsafe_loop.1 emptyEnvB [["X"]], main_uses_unsafe_loop.2 emptyEnvB "X" rfl⟩

def recSuccess : Rec :=
  [("id", Json.str "item1"),
   ("permanentLocation", Json.obj [("name", Json.str "Main Library")])]

def successEnv : Env := ⟨fun _ => ⟨[recSuccess], 1⟩, fun _ => (204, "")⟩

/-- C2 counterexample: at a record whose permanent location is named "Main
Library" and a PUT whose response body is empty, the safe row body emits
the empty message and the unsafe one emits "old location: Main Library";
neither message is the display name "Main Library". -/
theorem success_message_counterexample :
    process_row_safe successEnv "B2" =
      Except.ok (("B2", 204, ""), [[("id", Json.str "item1")]]) ∧
    process_row successEnv "B2" =
      Except.ok (("B2", 204, "old location: Main Library"), [[("id", Json.str "item1")]]) ∧
    ("" : String) ≠ "Main Library" ∧
    ("old location: Main Library" : String) ≠ "Main Library" :=
  ⟨rfl, rfl, by decide, by decide⟩

/-- C2 amended: when one matched item has a truthy permanent location and
the PUT response body is empty, the safe row body's message is that empty
response body, while the unsafe row body's message is "old location: "
followed by the removed location's display name. -/
theorem success_message_spec (env : Env) (b : String) (rec : Rec) (loc : Rec)
    (sc : Nat) (s : String)
    (hq : env.query b = ⟨[rec], 1⟩)
    (hold : (delete_perm_location rec).1 = some (Json.obj loc))
    (hloc : loc ≠ [])
    (hput : env.put (delete_perm_location rec).2 = (sc, ""))
    (hname : lookupKey "name" loc = some (Json.str s)) :
    process_row_safe env b = Except.ok ((b, sc, ""), [(delete_perm_location rec).2]) ∧
    process_row env b =
      Except.ok ((b, sc, "old location: " ++ s), [(delete_perm_location rec).2]) := by
  have hne : rec ≠ [] := by
    intro hnil
    rw [hnil] at hold
    simp [delete_perm_location, popKey] at hold
  have hempty : rec.isEmpty = false := by
    rcases rec with _ | ⟨kv, rest⟩
    · exact absurd rfl hne
    · rfl
  have ht2 : truthy (Json.obj loc) = true := by
    rcases loc with _ | ⟨kv, rest⟩
    · exact absurd rfl hloc
    · rfl
  have ht : truthyOpt (delete_perm_location rec).1 = true := by
    rw [hold]
    simpa [truthyOpt] using ht2
  constructor
  · simp [process_row_safe, get_item_by_barcode_safe, hq, ht, put_item, hput]
  · simp [process_row, get_item_by_barcode, hq, hempty, ht, ht2, truthyOpt, put_item,
      hput, hold, hname]

/-- Witness for the amended C2 at the "Main Library" record. -/
theorem success_message_spec_witness :
    process_row_safe successEnv "B5" =
      Except.ok (("B5", 204, ""), [(delete_perm_location recSuccess).2]) ∧
    process_row successEnv "B5" =
      Except.ok (("B5", 204, "old location: " ++ "Main Library"),
        [(delete_perm_location recSuccess).2]) :=
  success_message_spec successEnv "B5" recSuccess [("name", Json.str "Main Library")]
    204 "Main Library" rfl rfl (List.cons_ne_nil _ _) rfl rfl

/-- C9: a missing config file makes `read_config` exit with status 1 and a
malformed section header with status 2, each after writing a nonempty
error message to standard error. -/
theorem read_config_exit_codes (fs : String → Option String) (filename : String) :
    (fs filename = none →
      ∃ m, read_config fs filename = Except.error (1, m) ∧ m ≠ "") ∧
    (∀ contents, fs filename = some contents →
      read_file contents = Except.error ConfigError.missingSectionHeader →
      ∃ m, read_config fs filename = Except.error (2, m) ∧ m ≠ "") := by
  constructor
  · intro h
    refine ⟨"FileNotFoundError: [Errno 2] No such file or directory: " ++ filename ++ "\n",
      by simp [read_config, h, error_exit], ?_⟩
    intro he
    have hlen := congrArg String.length he
    simp [String.length_append] at hlen
    exact absurd hlen.2 (by decide)
  · intro contents hc hbad
    exact ⟨"MissingSectionHeaderError: File contains no section headers.\n",
      by simp [read_config, hc, hbad, error_exit], by decide⟩

/-- Witness for C9: an absent file exits 1, a file whose first content line
is a key assignment rather than a section header exits 2. -/
theorem read_config_exit_codes_witness :
    (∃ m, read_config (fun _ => none) "config.ini" = Except.error (1, m) ∧ m ≠ "") ∧
    (∃ m, read_config (fun _ => some "okapi_url = x") "config.ini" =
      Except.error (2, m) ∧ m ≠ "") :=
  ⟨(read_config_exit_codes (fun _ => none) "config.ini").1 rfl,
   (read_config_exit_codes (fun _ => some "okapi_url = x") "config.ini").2
     "okapi_url = x" rfl rfl⟩

end FolioUtils
